import Mathlib

set_option linter.unusedVariables false

/-!
Shallow embedding of src/app.py (LeapCell downloader + rclone cache service).

The program is a FastAPI service with one operational endpoint
GET /api/v1/fetch.  The request pipeline is: cache lookup in redis,
target URL construction from a template, browser-driven extraction of a
download URL from the rendered page, cache store, response.  An rclone
upload helper is also defined in the source.

External collaborators (redis, the Playwright browser, the rclone
subprocesses, the FastAPI framework) are modelled as oracles: each model
function takes the outcome of the collaborator call as an explicit
argument and returns the HTTP response paired with a trace of the
collaborator invocations it performed, so that claims about which calls
happen on which path can be stated and proved.

String primitives from the Python standard library that the source uses
(str.lower, substring membership, str.format with the id placeholder,
re.search of an anchored extension alternation, str.strip, str.rstrip)
are embedded as executable functions on Lean strings, restricted to
ASCII case mapping as used by the data in question.
-/

namespace LeapcellDL

/-- ASCII model of Python str.lower, applied characterwise. -/
def lowerStr (s : String) : String :=
  String.mk (s.toList.map Char.toLower)

/-- Helper for substring membership: pat occurs contiguously in the list. -/
def containsSubstrList (pat : List Char) : List Char → Bool
  | [] => pat.isEmpty
  | c :: rest => pat.isPrefixOf (c :: rest) || containsSubstrList pat rest

/-- Model of the Python substring test pat in s. -/
def containsSubstr (s pat : String) : Bool :=
  containsSubstrList pat.toList s.toList

/-- Model of the Python suffix test s.endswith suffix. -/
def endsWithStr (s suffix : String) : Bool :=
  suffix.toList.isSuffixOf s.toList

/-- Fuel-indexed replacement of every occurrence of pat by repl, used to
embed str.format below.  Fuel equal to the list length suffices because
each step consumes at least one character. -/
def replaceAllAux (pat repl : List Char) : Nat → List Char → List Char
  | 0, l => l
  | _ + 1, [] => []
  | fuel + 1, c :: rest =>
    if pat ≠ [] && pat.isPrefixOf (c :: rest) then
      repl ++ replaceAllAux pat repl fuel ((c :: rest).drop pat.length)
    else
      c :: replaceAllAux pat repl fuel rest

/-- Model of Python template.format applied to a template whose only
placeholder is the id placeholder: every occurrence of it is replaced by
the identifier (app.py line 48, make_target_url). -/
def make_target_url (template id : String) : String :=
  String.mk (replaceAllAux "{id}".toList id.toList template.toList.length template.toList)

/-- Model of Python str.rstrip with argument the slash character:
trailing slashes are removed (app.py line 56). -/
def rstripSlash (s : String) : String :=
  String.mk ((s.toList.reverse.dropWhile (fun c => c == '/')).reverse)

/-- Model of Python str.strip with no argument: leading and trailing
whitespace removed (app.py lines 68, 80, 84). -/
def stripWs (s : String) : String :=
  String.mk (((s.toList.dropWhile Char.isWhitespace).reverse.dropWhile Char.isWhitespace).reverse)

/-- The alternatives of the extension regular expression on app.py line
180, each with the preceding literal dot. -/
def fileExtAlternatives : List String :=
  [".zip", ".tar.gz", ".tgz", ".mp4", ".mkv", ".pdf", ".exe", ".bin", ".7z", ".rar"]

/-- Model of re.search applied to the case-insensitive anchored pattern
on app.py line 180.  The dollar anchor of Python re.search matches at
the end of the string and also just before one trailing newline, so both
positions are accepted. -/
def matchesFileExt (href : String) : Bool :=
  let h := lowerStr href
  fileExtAlternatives.any (fun e => endsWithStr h e || endsWithStr h (e ++ "\n"))

/-- Model of the download-marker test on app.py line 187: the literal
marker must occur in the concatenation of the lowercased href, class and
rel attribute values. -/
def downloadMarker (href cls rel : String) : Bool :=
  containsSubstr (lowerStr href ++ lowerStr cls ++ lowerStr rel) "download"

/-- Python truthiness of an optional string: None and the empty string
are falsy, every other string is truthy. -/
def truthy : Option String → Bool
  | none => false
  | some s => s ≠ ""

/-- An anchor element as observed by the scan loop: the results of
get_attribute for href, class and rel (None when the attribute is
absent). -/
structure Anchor where
  href : Option String
  cls : Option String
  rel : Option String
deriving DecidableEq, Repr

/-- An anchor is selected by the scan loop body (app.py lines 175-190)
when its href is present and nonempty and it matches the extension rule
or the download-marker rule. -/
def anchorHit (a : Anchor) : Bool :=
  match a.href with
  | none => false
  | some h =>
    h ≠ "" && (matchesFileExt h || downloadMarker h (a.cls.getD "") (a.rel.getD ""))

/-- The anchor scan loop of app.py lines 174-190: one pass in document
order; an anchor with absent or empty href is skipped; otherwise the
extension rule is tested, then the download-marker rule, and the first
match ends the loop with the joined URL.  Returns none when no anchor
matches.  The urljoin argument stands for urllib.parse.urljoin, an
external library collaborator. -/
def scanAnchors (pageUrl : String) (urljoin : String → String → String) :
    List Anchor → Option String
  | [] => none
  | a :: rest =>
    match a.href with
    | none => scanAnchors pageUrl urljoin rest
    | some h =>
      if h = "" then scanAnchors pageUrl urljoin rest
      else if matchesFileExt h then some (urljoin pageUrl h)
      else if downloadMarker h (a.cls.getD "") (a.rel.getD "") then some (urljoin pageUrl h)
      else scanAnchors pageUrl urljoin rest

/-- Outcome of page.query_selector on the hint (app.py lines 156-170):
the call raised, found no element, or found an element whose href
attribute is the given optional string. -/
inductive HintQuery where
  | qerr
  | qnone
  | qelem (href : Option String)
deriving DecidableEq, Repr

/-- The optional href carried by a hint query outcome: present only
when an element was found, mirroring that only the qelem case of the
hint branch can return early. -/
def hintHref : HintQuery → Option String
  | HintQuery.qelem oh => oh
  | _ => none

/-- A rendered page as observed by the extraction code: its final URL,
the behaviour of query_selector on selectors, and the anchors returned
by query_selector_all in document order. -/
structure Page where
  url : String
  query : String → HintQuery
  anchors : List Anchor

/-- Steps of the extraction code that the claims distinguish: the
selector-hint lookup and the anchor scan. -/
inductive FetchEvent where
  | hintLookup (sel : String)
  | anchorScan
deriving DecidableEq, Repr

/-- The download-URL extraction logic of fetch_download_url_from_page
after a successful navigation (app.py lines 153-199).  When a selector
hint is supplied and query_selector yields an element with a truthy
href, the joined URL is returned at once and the browser is closed; in
every other hint outcome (query raised, no element, element without a
truthy href) control falls through to the anchor scan; when the scan
finds nothing the page URL itself is the candidate.  The result is
paired with the trace of extraction steps taken. -/
def fetch_download_url_from_page (urljoin : String → String → String)
    (page : Page) (selector_hint : Option String) : String × List FetchEvent :=
  let scanned : String × List FetchEvent :=
    (match scanAnchors page.url urljoin page.anchors with
     | some c => c
     | none => page.url,
     [FetchEvent.anchorScan])
  match selector_hint with
  | none => scanned
  | some sel =>
    match page.query sel with
    | HintQuery.qelem oh =>
      if truthy oh then (urljoin page.url (oh.getD ""), [FetchEvent.hintLookup sel])
      else (scanned.1, FetchEvent.hintLookup sel :: scanned.2)
    | _ => (scanned.1, FetchEvent.hintLookup sel :: scanned.2)

/-- External-collaborator invocations performed by the request handler
and the upload helper: the redis read, the target construction, the
browser extraction call, the two rclone subprocess invocations, and the
redis write with its time to live. -/
inductive Event where
  | cacheGet (key : String)
  | buildTarget (id : String)
  | browserFetch (target : String) (selector_hint : Option String)
  | rcloneRcat (remote_target : String)
  | rcloneLink (remote_target : String)
  | cacheSet (key link : String) (ttl : Nat)
deriving DecidableEq, Repr

/-- True exactly on the two rclone subprocess events. -/
def isRcloneEvent : Event → Bool
  | Event.rcloneRcat _ => true
  | Event.rcloneLink _ => true
  | _ => false

/-- Observed result of one awaited subprocess: exit code and the decoded
standard output and standard error. -/
structure ProcResult where
  returncode : Int
  stdout : String
  stderr : String
deriving DecidableEq, Repr

/-- The destination path string built on app.py line 56. -/
def remoteTarget (remote remote_folder filename : String) : String :=
  remote ++ ":" ++ rstripSlash remote_folder ++ "/" ++ filename

/-- Model of the Python idiom text or the fallback literal: the fallback
is used when the text is empty (app.py lines 68, 80). -/
def orNoStderr (s : String) : String :=
  if s = "" then "no stderr" else s

/-- Model of rclone_rstream_upload_bytes (app.py lines 51-89): one rcat
subprocess streaming the bytes to the remote target, then, only if it
exited zero, one link subprocess; a nonzero exit at either stage raises
with the stripped stderr text, and on success the stripped stdout of the
link invocation is the returned public link.  The two ProcResult
arguments are oracles for the two subprocess outcomes. -/
def rclone_rstream_upload_bytes (remote : String) (data_bytes : List Nat)
    (remote_folder filename : String) (rcatProc linkProc : ProcResult) :
    Except String String × List Event :=
  let rt := remoteTarget remote remote_folder filename
  if rcatProc.returncode ≠ 0 then
    (Except.error ("rclone rcat failed: " ++ orNoStderr (stripWs rcatProc.stderr)),
     [Event.rcloneRcat rt])
  else if linkProc.returncode ≠ 0 then
    (Except.error ("rclone link failed: " ++ orNoStderr (stripWs linkProc.stderr)),
     [Event.rcloneRcat rt, Event.rcloneLink rt])
  else
    (Except.ok (stripWs linkProc.stdout),
     [Event.rcloneRcat rt, Event.rcloneLink rt])

/-- Outcome of the awaited redis.get call (app.py line 235): a returned
value (none when the key is absent) or a raised exception. -/
inductive CacheGetResult where
  | ok (val : Option String)
  | err
deriving DecidableEq, Repr

/-- Whether the redis read produced a truthy cached value, which is the
condition on app.py line 236 for answering from the cache. -/
def cacheHit : CacheGetResult → Bool
  | CacheGetResult.ok v => truthy v
  | CacheGetResult.err => false

/-- Outcome of the awaited extraction call wrapped in asyncio.wait_for
(app.py lines 246-249): a returned URL, a raised exception with its
message, or cancellation by the overall operation timeout. -/
inductive ExtractOutcome where
  | ok (result_url : String)
  | exn (msg : String)
  | timedOut
deriving DecidableEq, Repr

/-- Outcome of the awaited redis.set call (app.py line 255). -/
inductive CacheSetResult where
  | ok
  | err
deriving DecidableEq, Repr

/-- Response bodies the endpoint can produce: the success JSON object
with id, url and cached fields; the HTTPException detail-string object;
and the FastAPI validation body whose detail field is a list of error
objects. -/
inductive Body where
  | success (id url : String) (cached : Bool)
  | error (detail : String)
  | validationError (errors : List String)
deriving DecidableEq, Repr

/-- An HTTP response: status code and body. -/
structure HttpResponse where
  status : Nat
  body : Body
deriving DecidableEq, Repr

/-- The part of fetch_item_handler after the cache check found no usable
value (app.py lines 242-267): build the target URL, await the extraction
under the overall timeout, and on success attempt the redis write (its
outcome is ignored) and answer 200 with cached false; a timeout becomes
a 504 and any other exception a 500 carrying the exception text. -/
def handlerAfterCache (template : String) (ttl : Nat) (id : String)
    (selector_hint : Option String) (key : String)
    (extract : ExtractOutcome) (setRes : CacheSetResult) :
    HttpResponse × List Event :=
  let target := make_target_url template id
  match extract with
  | ExtractOutcome.ok result_url =>
    (⟨200, Body.success id result_url false⟩,
     [Event.cacheGet key, Event.buildTarget id,
      Event.browserFetch target selector_hint,
      Event.cacheSet key result_url ttl])
  | ExtractOutcome.timedOut =>
    (⟨504, Body.error "Operation timed out"⟩,
     [Event.cacheGet key, Event.buildTarget id,
      Event.browserFetch target selector_hint])
  | ExtractOutcome.exn msg =>
    (⟨500, Body.error msg⟩,
     [Event.cacheGet key, Event.buildTarget id,
      Event.browserFetch target selector_hint])

/-- Model of fetch_item_handler (app.py lines 226-267).  The redis key
is the namespaced identifier; a truthy cached value is answered at once
with cached true and nothing else is invoked; a returned falsy value and
a raised redis read are both followed by the same fall-through to
extraction.  The template and ttl arguments carry the environment-driven
configuration values of app.py lines 31 and 33. -/
def fetch_item_handler (template : String) (ttl : Nat) (id : String)
    (selector_hint : Option String) (getRes : CacheGetResult)
    (extract : ExtractOutcome) (setRes : CacheSetResult) :
    HttpResponse × List Event :=
  let key := "leapcell:link:" ++ id
  match getRes with
  | CacheGetResult.ok v =>
    if truthy v then
      (⟨200, Body.success id (v.getD "") true⟩, [Event.cacheGet key])
    else
      handlerAfterCache template ttl id selector_hint key extract setRes
  | CacheGetResult.err =>
    handlerAfterCache template ttl id selector_hint key extract setRes

/-- A request to the operational endpoint as the framework sees it: the
query parameters that may or may not be present. -/
structure Request where
  id : Option String
  selector_hint : Option String
deriving DecidableEq, Repr

/-- Model of the FastAPI routing layer for GET /api/v1/fetch.  The id
parameter is declared required on app.py line 228 with Query and no
default; the documented FastAPI behaviour for a request missing a
required query parameter is to reject it before the handler body runs
with its standard validation response: status 422 and a detail field
holding a list of error objects.  A present id reaches the handler. -/
def route_fetch (template : String) (ttl : Nat) (req : Request)
    (getRes : CacheGetResult) (extract : ExtractOutcome)
    (setRes : CacheSetResult) : HttpResponse × List Event :=
  match req.id with
  | none =>
    (⟨422, Body.validationError ["query parameter id: field required"]⟩, [])
  | some id =>
    fetch_item_handler template ttl id req.selector_hint getRes extract setRes

/-- Configured default of SERVICE_URL_TEMPLATE (app.py line 31). -/
def SERVICE_URL_TEMPLATE : String := "https://leapcell.example/item/{id}"

/-- Configured default of REDIS_TTL in seconds (app.py line 33). -/
def REDIS_TTL : Nat := 60 * 60 * 24

/-- Concrete URL resolver used in example pages and counterexamples,
standing in for the opaque urllib.parse.urljoin collaborator on inputs
where relative resolution is plain concatenation of host and path. -/
def exampleJoin (base rel : String) : String :=
  if containsSubstr rel "://" then rel else "https://host.test" ++ rel

/-- C5: for all identifiers whose cache lookup returns a present,
non-expired (hence truthy) link, the endpoint responds with exactly that
link and cached true, and the invocation trace holds only the cache
read: no target construction, no browser launch and no sync-tool call
happen on that request. -/
theorem C5_cache_hit (template : String) (ttl : Nat) (id : String)
    (selector_hint : Option String) (link : String) (extract : ExtractOutcome)
    (setRes : CacheSetResult) (hlink : link ≠ "") :
    fetch_item_handler template ttl id selector_hint
        (CacheGetResult.ok (some link)) extract setRes
      = (⟨200, Body.success id link true⟩,
         [Event.cacheGet ("leapcell:link:" ++ id)]) := by
  simp [fetch_item_handler, truthy, hlink]

/-- Witness for C5 at a concrete cached identifier. -/
theorem C5_witness :
    fetch_item_handler SERVICE_URL_TEMPLATE REDIS_TTL "12345" none
        (CacheGetResult.ok (some "https://mega.test/pub/1"))
        (ExtractOutcome.ok "unused") CacheSetResult.ok
      = (⟨200, Body.success "12345" "https://mega.test/pub/1" true⟩,
         [Event.cacheGet ("leapcell:link:" ++ "12345")]) :=
  C5_cache_hit SERVICE_URL_TEMPLATE REDIS_TTL "12345" none
    "https://mega.test/pub/1" (ExtractOutcome.ok "unused") CacheSetResult.ok
    (by decide)

/-- C6: for all identifiers with no cache entry, a successful run
answers 200 with cached false, and the trace holds a cache write of
exactly the link that is returned. -/
theorem C6_cache_write (template : String) (ttl : Nat) (id : String)
    (selector_hint : Option String) (u : String) (setRes : CacheSetResult) :
    (fetch_item_handler template ttl id selector_hint (CacheGetResult.ok none)
        (ExtractOutcome.ok u) setRes).1 = ⟨200, Body.success id u false⟩ ∧
    Event.cacheSet ("leapcell:link:" ++ id) u ttl
      ∈ (fetch_item_handler template ttl id selector_hint (CacheGetResult.ok none)
          (ExtractOutcome.ok u) setRes).2 := by
  constructor <;> simp [fetch_item_handler, handlerAfterCache, truthy]

/-- C7: cache failure is never fatal.  A raised cache read produces
exactly the run of an absent key, and a raised cache write after a
successful extraction still yields the 200 response carrying the
resolved link. -/
theorem C7_cache_nonfatal (template : String) (ttl : Nat) (id : String)
    (selector_hint : Option String) (extract : ExtractOutcome)
    (setRes : CacheSetResult) :
    fetch_item_handler template ttl id selector_hint
        CacheGetResult.err extract setRes
      = fetch_item_handler template ttl id selector_hint
          (CacheGetResult.ok none) extract setRes ∧
    (∀ u, (fetch_item_handler template ttl id selector_hint
            CacheGetResult.err (ExtractOutcome.ok u) CacheSetResult.err).1
        = ⟨200, Body.success id u false⟩) := by
  constructor
  · simp [fetch_item_handler, truthy]
  · intro u
    simp [fetch_item_handler, handlerAfterCache, truthy]

/-- C9: when a selector hint is supplied and the page yields an element
for it whose href is nonempty, the extraction returns the joined hint
URL at once and the anchor scan step never appears in the trace. -/
theorem C9_hint_priority (urljoin : String → String → String) (page : Page)
    (sel h : String) (hq : page.query sel = HintQuery.qelem (some h))
    (hh : h ≠ "") :
    fetch_download_url_from_page urljoin page (some sel)
      = (urljoin page.url h, [FetchEvent.hintLookup sel]) ∧
    FetchEvent.anchorScan ∉ (fetch_download_url_from_page urljoin page (some sel)).2 := by
  have hres : fetch_download_url_from_page urljoin page (some sel)
      = (urljoin page.url h, [FetchEvent.hintLookup sel]) := by
    simp [fetch_download_url_from_page, hq, truthy, hh]
  refine ⟨hres, ?_⟩
  rw [hres]
  simp

/-- Witness for C9 on a concrete page holding both a hint match and an
extension-matching anchor: the hint wins. -/
theorem C9_witness :
    fetch_download_url_from_page exampleJoin
        ⟨"https://p.test/item/1", fun _ => HintQuery.qelem (some "/hint.bin"),
         [⟨some "/f/y.zip", none, none⟩]⟩ (some "#dl")
      = (exampleJoin "https://p.test/item/1" "/hint.bin",
         [FetchEvent.hintLookup "#dl"]) ∧
    FetchEvent.anchorScan ∉
      (fetch_download_url_from_page exampleJoin
        ⟨"https://p.test/item/1", fun _ => HintQuery.qelem (some "/hint.bin"),
         [⟨some "/f/y.zip", none, none⟩]⟩ (some "#dl")).2 :=
  C9_hint_priority exampleJoin
    ⟨"https://p.test/item/1", fun _ => HintQuery.qelem (some "/hint.bin"),
     [⟨some "/f/y.zip", none, none⟩]⟩ "#dl" "/hint.bin" rfl (by decide)

/-- C10: an anchor whose href is absent or empty is skipped before
either matching rule runs; such an anchor never becomes the candidate
even when its class or rel carries the download marker. -/
theorem C10_skip_no_href (pageUrl : String)
    (urljoin : String → String → String) (a : Anchor) (rest : List Anchor)
    (h : a.href = none ∨ a.href = some "") :
    scanAnchors pageUrl urljoin (a :: rest) = scanAnchors pageUrl urljoin rest ∧
    anchorHit a = false := by
  obtain ⟨oh, oc, orl⟩ := a
  rcases h with h | h <;>
    (simp only [Anchor.href] at h; subst h; simp [scanAnchors, anchorHit])

/-- Witness for C10: a marker-bearing anchor without href contributes
nothing to the scan. -/
theorem C10_witness :
    scanAnchors "https://p.test/item/9" exampleJoin
        [⟨none, some "btn download", some "nofollow"⟩]
      = scanAnchors "https://p.test/item/9" exampleJoin [] ∧
    anchorHit ⟨none, some "btn download", some "nofollow"⟩ = false :=
  C10_skip_no_href "https://p.test/item/9" exampleJoin
    ⟨none, some "btn download", some "nofollow"⟩ [] (Or.inl rfl)

/-- C2 counterexample: on a page holding a download-marker anchor
followed by an extension-matching anchor, with no selector hint, the
code returns the marker anchor URL, not the later extension anchor URL
as the claim asserts. -/
theorem C2_counterexample :
    (fetch_download_url_from_page exampleJoin
        ⟨"https://p.test/item/2", fun _ => HintQuery.qnone,
         [⟨some "/files?download=1", none, none⟩,
          ⟨some "/f/x.zip", none, none⟩]⟩ none).1
      = "https://host.test/files?download=1" ∧
    "https://host.test/files?download=1" ≠ "https://host.test/f/x.zip" ∧
    exampleJoin "https://p.test/item/2" "/f/x.zip"
      = "https://host.test/f/x.zip" := by
  decide

/-- C2 amended: the scan is a single pass in document order; each anchor
with a present nonempty href is tested by the extension rule and then by
the download-marker rule, and the first anchor matching either rule is
returned with its href joined against the page URL.  Within one anchor
the extension rule is tested first, but an earlier marker-matching
anchor beats a later extension-matching anchor. -/
theorem C2_single_pass (pageUrl : String)
    (urljoin : String → String → String) (anchors : List Anchor) :
    scanAnchors pageUrl urljoin anchors
      = (anchors.find? anchorHit).bind (fun a => a.href.map (urljoin pageUrl)) := by
  induction anchors with
  | nil => rfl
  | cons a rest ih =>
    obtain ⟨oh, oc, orl⟩ := a
    cases oh with
    | none => simpa [scanAnchors, anchorHit, List.find?] using ih
    | some h =>
      by_cases hemp : h = ""
      · subst hemp
        simpa [scanAnchors, anchorHit, List.find?] using ih
      · by_cases hext : matchesFileExt h = true
        · simp [scanAnchors, anchorHit, List.find?, hemp, hext]
        · by_cases hmk : downloadMarker h (oc.getD "") (orl.getD "") = true
          · simp [scanAnchors, anchorHit, List.find?, hemp, hext, hmk]
          · simpa [scanAnchors, anchorHit, List.find?, hemp, hext, hmk] using ih

/-- C3 counterexample: on a page with no hint match, no matching anchor
and no marker anchor, the extraction returns the page URL itself and the
request completes with status 200, not 404 as the claim asserts. -/
theorem C3_counterexample :
    (fetch_download_url_from_page exampleJoin
        ⟨"https://p.test/item/3", fun _ => HintQuery.qnone, []⟩ none).1
      = "https://p.test/item/3" ∧
    (fetch_item_handler SERVICE_URL_TEMPLATE REDIS_TTL "3" none
        (CacheGetResult.ok none) (ExtractOutcome.ok "https://p.test/item/3")
        CacheSetResult.ok).1.status = 200 ∧
    (fetch_item_handler SERVICE_URL_TEMPLATE REDIS_TTL "3" none
        (CacheGetResult.ok none) (ExtractOutcome.ok "https://p.test/item/3")
        CacheSetResult.ok).1.status ≠ 404 := by
  decide

/-- C3 amended: when the rendered page yields no hint match with a
truthy href, no extension-matching anchor and no marker anchor, the
extraction does not fail: it returns the page own URL as a last-resort
candidate, and the request completes with status 200 carrying that URL
with cached false. -/
theorem C3_page_url_fallback (urljoin : String → String → String)
    (page : Page) (selector_hint : Option String)
    (hhint : ∀ sel, selector_hint = some sel →
      truthy (hintHref (page.query sel)) = false)
    (hscan : scanAnchors page.url urljoin page.anchors = none)
    (template : String) (ttl : Nat) (id : String) (setRes : CacheSetResult) :
    (fetch_download_url_from_page urljoin page selector_hint).1 = page.url ∧
    (fetch_item_handler template ttl id selector_hint (CacheGetResult.ok none)
        (ExtractOutcome.ok
          (fetch_download_url_from_page urljoin page selector_hint).1)
        setRes).1
      = ⟨200, Body.success id page.url false⟩ := by
  have h1 : (fetch_download_url_from_page urljoin page selector_hint).1 = page.url := by
    cases selector_hint with
    | none => simp [fetch_download_url_from_page, hscan]
    | some sel =>
      have hfall := hhint sel rfl
      cases hq : page.query sel with
      | qerr => simp [fetch_download_url_from_page, hq, hscan]
      | qnone => simp [fetch_download_url_from_page, hq, hscan]
      | qelem oh =>
        rw [hq] at hfall
        simp only [hintHref] at hfall
        simp [fetch_download_url_from_page, hq, hfall, hscan]
  refine ⟨h1, ?_⟩
  rw [h1]
  simp [fetch_item_handler, handlerAfterCache, truthy]

/-- Witness for C3 amended at a concrete empty page. -/
theorem C3_witness :
    (fetch_download_url_from_page exampleJoin
        ⟨"https://p.test/item/31", fun _ => HintQuery.qnone, []⟩ (some "#x")).1
      = "https://p.test/item/31" ∧
    (fetch_item_handler SERVICE_URL_TEMPLATE REDIS_TTL "31" (some "#x")
        (CacheGetResult.ok none)
        (ExtractOutcome.ok
          ((fetch_download_url_from_page exampleJoin
            ⟨"https://p.test/item/31", fun _ => HintQuery.qnone, []⟩ (some "#x")).1))
        CacheSetResult.ok).1
      = ⟨200, Body.success "31" "https://p.test/item/31" false⟩ :=
  C3_page_url_fallback exampleJoin
    ⟨"https://p.test/item/31", fun _ => HintQuery.qnone, []⟩ (some "#x")
    (by intro sel hs; rfl) (by decide)
    SERVICE_URL_TEMPLATE REDIS_TTL "31" CacheSetResult.ok

/-- C4 counterexample: a request omitting the identifier is rejected by
the framework validation layer with status 422 and a list-shaped detail
body, not the claimed status 400 with a detail string. -/
theorem C4_counterexample :
    (route_fetch SERVICE_URL_TEMPLATE REDIS_TTL ⟨none, none⟩
        (CacheGetResult.ok none) (ExtractOutcome.ok "unused")
        CacheSetResult.ok).1.status = 422 ∧
    (route_fetch SERVICE_URL_TEMPLATE REDIS_TTL ⟨none, none⟩
        (CacheGetResult.ok none) (ExtractOutcome.ok "unused")
        CacheSetResult.ok).1.status ≠ 400 ∧
    (∀ s, (route_fetch SERVICE_URL_TEMPLATE REDIS_TTL ⟨none, none⟩
        (CacheGetResult.ok none) (ExtractOutcome.ok "unused")
        CacheSetResult.ok).1.body ≠ Body.error s) := by
  refine ⟨rfl, by decide, ?_⟩
  intro s
  simp [route_fetch]

/-- C4 amended: a request omitting the identifier never reaches the
handler: the framework answers with its standard validation response,
status 422 with a detail list, and no collaborator is invoked. -/
theorem C4_missing_id (template : String) (ttl : Nat) (req : Request)
    (hid : req.id = none) (getRes : CacheGetResult)
    (extract : ExtractOutcome) (setRes : CacheSetResult) :
    route_fetch template ttl req getRes extract setRes
      = (⟨422, Body.validationError ["query parameter id: field required"]⟩, []) := by
  obtain ⟨oid, osel⟩ := req
  simp only [Request.id] at hid
  subst hid
  rfl

/-- Witness for C4 amended at a concrete empty request. -/
theorem C4_witness :
    route_fetch SERVICE_URL_TEMPLATE REDIS_TTL ⟨none, some "#x"⟩
        CacheGetResult.err ExtractOutcome.timedOut CacheSetResult.err
      = (⟨422, Body.validationError ["query parameter id: field required"]⟩, []) :=
  C4_missing_id SERVICE_URL_TEMPLATE REDIS_TTL ⟨none, some "#x"⟩ rfl
    CacheGetResult.err ExtractOutcome.timedOut CacheSetResult.err

/-- Supporting fact about the upload helper: when both subprocesses exit
zero it performs one rcat invocation and then one link invocation on the
same remote target and returns the stripped stdout of the second one. -/
theorem rclone_upload_success_link (remote : String) (data_bytes : List Nat)
    (remote_folder filename : String) (rcatProc linkProc : ProcResult)
    (h1 : rcatProc.returncode = 0) (h2 : linkProc.returncode = 0) :
    rclone_rstream_upload_bytes remote data_bytes remote_folder filename
        rcatProc linkProc
      = (Except.ok (stripWs linkProc.stdout),
         [Event.rcloneRcat (remoteTarget remote remote_folder filename),
          Event.rcloneLink (remoteTarget remote remote_folder filename)]) := by
  simp [rclone_rstream_upload_bytes, h1, h2]

/-- C1 counterexample: a concrete cache-miss request whose extraction
succeeds is answered with the URL scraped from the page itself, and its
invocation trace holds no rclone subprocess call at all, contradicting
the claimed mirror-and-publish behaviour. -/
theorem C1_counterexample :
    (fetch_item_handler SERVICE_URL_TEMPLATE REDIS_TTL "12345" none
        (CacheGetResult.ok none)
        (ExtractOutcome.ok "https://host.test/f/x.zip") CacheSetResult.ok).1
      = ⟨200, Body.success "12345" "https://host.test/f/x.zip" false⟩ ∧
    ((fetch_item_handler SERVICE_URL_TEMPLATE REDIS_TTL "12345" none
        (CacheGetResult.ok none)
        (ExtractOutcome.ok "https://host.test/f/x.zip") CacheSetResult.ok).2.all
      (fun e => !isRcloneEvent e)) = true := by
  decide

/-- C1 amended: the request path never invokes the sync tool - the
upload helper is defined in the source but never called by the handler -
and on a cache miss with successful extraction the URL returned to the
caller and written to the cache is the URL resolved from the page
itself. -/
theorem C1_no_publish (template : String) (ttl : Nat) (id : String)
    (selector_hint : Option String) (getRes : CacheGetResult)
    (extract : ExtractOutcome) (setRes : CacheSetResult) :
    ((fetch_item_handler template ttl id selector_hint getRes extract setRes).2.all
      (fun e => !isRcloneEvent e)) = true ∧
    (∀ u, cacheHit getRes = false → extract = ExtractOutcome.ok u →
      (fetch_item_handler template ttl id selector_hint getRes extract setRes).1
          = ⟨200, Body.success id u false⟩ ∧
      Event.cacheSet ("leapcell:link:" ++ id) u ttl
        ∈ (fetch_item_handler template ttl id selector_hint getRes extract setRes).2) := by
  constructor
  · cases getRes with
    | err =>
      cases extract <;> simp [fetch_item_handler, handlerAfterCache, isRcloneEvent]
    | ok v =>
      cases htv : truthy v with
      | true => simp [fetch_item_handler, htv, isRcloneEvent]
      | false =>
        cases extract <;>
          simp [fetch_item_handler, handlerAfterCache, htv, isRcloneEvent]
  · intro u hmiss hext
    subst hext
    cases getRes with
    | err => simp [fetch_item_handler, handlerAfterCache]
    | ok v =>
      simp only [cacheHit] at hmiss
      simp [fetch_item_handler, handlerAfterCache, hmiss]

/-- Witness for C1 amended at a concrete cache-miss request. -/
theorem C1_witness :
    ((fetch_item_handler SERVICE_URL_TEMPLATE REDIS_TTL "77" none
        (CacheGetResult.ok none) (ExtractOutcome.ok "https://p.test/d/a.pdf")
        CacheSetResult.ok).2.all (fun e => !isRcloneEvent e)) = true ∧
    ((fetch_item_handler SERVICE_URL_TEMPLATE REDIS_TTL "77" none
        (CacheGetResult.ok none) (ExtractOutcome.ok "https://p.test/d/a.pdf")
        CacheSetResult.ok).1
        = ⟨200, Body.success "77" "https://p.test/d/a.pdf" false⟩ ∧
      Event.cacheSet ("leapcell:link:" ++ "77") "https://p.test/d/a.pdf" REDIS_TTL
        ∈ (fetch_item_handler SERVICE_URL_TEMPLATE REDIS_TTL "77" none
            (CacheGetResult.ok none) (ExtractOutcome.ok "https://p.test/d/a.pdf")
            CacheSetResult.ok).2) :=
  ⟨(C1_no_publish SERVICE_URL_TEMPLATE REDIS_TTL "77" none
      (CacheGetResult.ok none) (ExtractOutcome.ok "https://p.test/d/a.pdf")
      CacheSetResult.ok).1,
   (C1_no_publish SERVICE_URL_TEMPLATE REDIS_TTL "77" none
      (CacheGetResult.ok none) (ExtractOutcome.ok "https://p.test/d/a.pdf")
      CacheSetResult.ok).2 "https://p.test/d/a.pdf" (by decide) rfl⟩

end LeapcellDL
